import Mathlib

/-!
Shallow embedding of `exps/cbad/utils.py` from the dhSegment repository:
line-height statistics with outlier rejection, mask-rasterization control
flow, class-table generation, dataset-manifest generation with companion
page files, image resizing, and the train/eval split.

Conventions: numpy float64 values are modelled by exact rationals `ℚ`,
integer pixel data by `ℕ`/`ℤ`, single-channel drawing buffers by pixel
functions `ℕ → ℕ → ℕ`, and Python exceptions by `Except`.
-/

/-- A PAGE-XML point with integer coordinates, as in `PAGE.Point`. -/
structure Point where
  x : ℤ
  y : ℤ
  deriving DecidableEq

/-- A PAGE-XML text line: an ordered baseline point list and an ordered
outline (`coords`) point list. -/
structure TextLine where
  baseline : List Point
  coords : List Point
  deriving DecidableEq

/-- A PAGE-XML text region, holding its text lines in document order. -/
structure TextRegion where
  text_lines : List TextLine
  deriving DecidableEq

/-- A parsed PAGE-XML document: the regions in document order. -/
structure Page where
  text_regions : List TextRegion
  deriving DecidableEq

/-- Sorted copy of a rational sample (`np.sort`, used inside `np.median`). -/
def sortedSample (xs : List ℚ) : List ℚ :=
  xs.insertionSort (fun a b => a ≤ b)

/-- Model of `np.median` on a 1-D sample: the middle element of the sorted
data for odd length, the average of the two middle elements for even
length. An empty sample yields 0 (numpy would produce NaN; no code path
settled here feeds an empty sample to a median that is then consumed). -/
def statMedian (xs : List ℚ) : ℚ :=
  let s := sortedSample xs
  if xs.length % 2 = 1 then s.getD (xs.length / 2) 0
  else (s.getD (xs.length / 2 - 1) 0 + s.getD (xs.length / 2) 0) / 2

/-- Model of `np.mean` (0 on the empty sample, where numpy gives NaN). -/
def statMean (xs : List ℚ) : ℚ := xs.sum / xs.length

/-- Square of `np.std` (population variance). `np.std` itself is the square
root of this value; the variance is carried instead so that the statistic
stays inside `ℚ`, which is faithful because the code only returns the std
and the claims only constrain which subsample it is computed over. -/
def statVariance (xs : List ℚ) : ℚ :=
  ((xs.map (fun v => (v - statMean xs) ^ 2)).sum) / xs.length

/-- Model of `_is_outlier` (utils.py lines 300-332) on a 1-D sample with the
default threshold 3.5. For 1-D input, `diff = sqrt((v - median)^2)` is
`|v - median|`; the median absolute deviation is clamped from below by
`1e-10` (`np.float64` is a Python `float`, so the scalar `np.maximum`
branch runs); the mask marks values whose modified Z-score
`0.6745 * diff / mad` exceeds the threshold. -/
def _is_outlier (points : List ℚ) : List Bool :=
  let med := statMedian points
  let diff := points.map (fun p => |p - med|)
  let mad := max (statMedian diff) (1 / 10 ^ 10)
  diff.map (fun d => decide (6745 / 10000 * d / mad > 7 / 2))

/-- Maximum of an integer list (`np.max` of a nonempty array; 0 fallback). -/
def listMax (xs : List ℤ) : ℤ := xs.foldl max (xs.headD 0)

/-- Minimum of an integer list (`np.min` of a nonempty array; 0 fallback). -/
def listMin (xs : List ℤ) : ℤ := xs.foldl min (xs.headD 0)

/-- Per-line vertical extents (utils.py lines 279-280): for every text line
with nonempty `coords`, taken across regions in document order, the height
`max y - min y` over its outline points. -/
def line_heights (page : Page) : List ℚ :=
  (((page.text_regions.map (fun tr => tr.text_lines)).flatten).filter
      (fun tl => !tl.coords.isEmpty)).map
    (fun tl => ((listMax (tl.coords.map (fun c => c.y)) -
                 listMin (tl.coords.map (fun c => c.y)) : ℤ) : ℚ))

/-- The subsample kept after outlier removal (utils.py lines 282-287):
the `_is_outlier` mask is applied only when more than 3 line heights are
present, otherwise every sample value is kept. -/
def retained_line_heights (lh : List ℚ) : List ℚ :=
  if 3 < lh.length then
    ((lh.zip (_is_outlier lh)).filter (fun p => !p.2)).map (fun p => p.1)
  else lh

/-- Model of `_compute_statistics_line_height` (utils.py lines 271-297).
The code returns `(mean, std, median)` of the retained subsample; the
middle component here carries the variance, i.e. the square of the
returned std (see `statVariance`). -/
def _compute_statistics_line_height (page : Page) : ℚ × ℚ × ℚ :=
  let kept := retained_line_heights (line_heights page)
  (statMean kept, statVariance kept, statMedian kept)

/-- The subset of a sample surviving the modified Z-score test, written the
way the specification describes it: keep `v` unless
`0.6745 * |v - median| / mad > 3.5` with `mad` the median absolute
deviation clamped from below by `1e-10`. -/
def survivors (xs : List ℚ) : List ℚ :=
  xs.filter (fun v =>
    !(decide (6745 / 10000 * |v - statMedian xs| /
        max (statMedian (xs.map (fun p => |p - statMedian xs|))) (1 / 10 ^ 10) > 7 / 2)))

lemma mask_filter_map {α : Type} (f : α → Bool) (xs : List α) :
    ((xs.zip (xs.map f)).filter (fun p => !p.2)).map (fun p => p.1) =
      xs.filter (fun v => !(f v)) := by
  induction xs with
  | nil => rfl
  | cons a t ih =>
    simp only [List.map_cons, List.zip_cons_cons, List.filter_cons]
    cases h : f a <;> simp [ih, h]

lemma is_outlier_eq_map (points : List ℚ) :
    _is_outlier points =
      points.map (fun v =>
        decide (6745 / 10000 * |v - statMedian points| /
          max (statMedian (points.map (fun p => |p - statMedian points|))) (1 / 10 ^ 10)
            > 7 / 2)) := by
  simp [_is_outlier, List.map_map, Function.comp]

lemma retained_eq_survivors (lh : List ℚ) (h : 3 < lh.length) :
    retained_line_heights lh = survivors lh := by
  rw [retained_line_heights, if_pos h, is_outlier_eq_map, mask_filter_map, survivors]

/-- C7: for a line-height sample of size 3 or fewer,
`_compute_statistics_line_height` performs no outlier rejection and computes
mean, variance (std squared) and median over all sample values; for larger
samples it computes them over the subset surviving the modified Z-score
test. -/
theorem compute_statistics_outlier_policy (page : Page) :
    ((line_heights page).length ≤ 3 →
      _compute_statistics_line_height page =
        (statMean (line_heights page), statVariance (line_heights page),
          statMedian (line_heights page))) ∧
    (3 < (line_heights page).length →
      _compute_statistics_line_height page =
        (statMean (survivors (line_heights page)),
          statVariance (survivors (line_heights page)),
          statMedian (survivors (line_heights page)))) := by
  constructor
  · intro h
    rw [_compute_statistics_line_height, retained_line_heights, if_neg (by omega)]
  · intro h
    rw [_compute_statistics_line_height, retained_eq_survivors _ h]

/-- A concrete page with exactly three text lines of heights 10, 12 and
1000; the third height is an extreme outlier relative to the others. -/
def pageThreeSamples : Page :=
  { text_regions :=
      [{ text_lines :=
          [{ baseline := [], coords := [⟨0, 0⟩, ⟨0, 10⟩] },
           { baseline := [], coords := [⟨0, 0⟩, ⟨0, 12⟩] },
           { baseline := [], coords := [⟨0, 0⟩, ⟨0, 1000⟩] }] }] }

theorem compute_statistics_outlier_policy_witness :
    (line_heights pageThreeSamples).length ≤ 3 ∧
      _compute_statistics_line_height pageThreeSamples =
        (statMean (line_heights pageThreeSamples),
          statVariance (line_heights pageThreeSamples),
          statMedian (line_heights pageThreeSamples)) :=
  ⟨by decide, (compute_statistics_outlier_policy pageThreeSamples).1 (by decide)⟩

/-- C8: `_is_outlier` classifies the i-th sample value `v` as an outlier
exactly when `0.6745 * |v - median| / mad > 3.5`, where `mad` is the median
of absolute deviations clamped from below by `1e-10`; the clamped divisor
is strictly positive for every sample, including zero-variance ones. -/
theorem is_outlier_characterization (points : List ℚ) :
    0 < max (statMedian (points.map (fun p => |p - statMedian points|))) ((1 : ℚ) / 10 ^ 10) ∧
    ∀ i, i < points.length →
      ((_is_outlier points).getD i false = true ↔
        6745 / 10000 * |points.getD i 0 - statMedian points| /
          max (statMedian (points.map (fun p => |p - statMedian points|))) (1 / 10 ^ 10)
            > 7 / 2) := by
  constructor
  · exact lt_of_lt_of_le (by norm_num) (le_max_right _ _)
  · intro i hi
    have hv : points[i]? = some (points.get ⟨i, hi⟩) := List.getElem?_eq_getElem hi
    rw [is_outlier_eq_map]
    rw [List.getD_eq_getElem?_getD, List.getD_eq_getElem?_getD, List.getElem?_map, hv]
    simp

/-- A concrete zero-variance-dominated sample with one extreme value. -/
def sampleFour : List ℚ := [1, 1, 1, 100]

theorem is_outlier_characterization_witness :
    0 < max (statMedian (sampleFour.map (fun p => |p - statMedian sampleFour|))) ((1 : ℚ) / 10 ^ 10) ∧
      ((_is_outlier sampleFour).getD 3 false = true ↔
        6745 / 10000 * |sampleFour.getD 3 0 - statMedian sampleFour| /
          max (statMedian (sampleFour.map (fun p => |p - statMedian sampleFour|))) (1 / 10 ^ 10)
            > 7 / 2) :=
  ⟨(is_outlier_characterization sampleFour).1,
    (is_outlier_characterization sampleFour).2 3 (by decide)⟩

/-- Color constant for the baseline channel (utils.py line 15). -/
def DRAWING_COLOR_BASELINES : ℕ × ℕ × ℕ := (255, 0, 0)

/-- Color constant for the line-polygon channel (utils.py line 16). -/
def DRAWING_COLOR_LINES : ℕ × ℕ × ℕ := (0, 255, 0)

/-- Color constant for the endpoint channel (utils.py line 17). -/
def DRAWING_COLOR_POINTS : ℕ × ℕ × ℕ := (0, 0, 255)

/-- Element-wise sum of two color triples (`np.array(c1) + np.array(c2)`). -/
def addColors (a b : ℕ × ℕ × ℕ) : ℕ × ℕ × ℕ :=
  (a.1 + b.1, a.2.1 + b.2.1, a.2.2 + b.2.2)

/-- The class table built by `cbad_set_generator` (utils.py lines 203-218):
background first, then one conditional append per enabled single channel,
then one per enabled pairwise combination, then the triple combination. -/
def classes_list (draw_baselines draw_lines draw_endpoints : Bool) : List (ℕ × ℕ × ℕ) :=
  let c0 := [(0, 0, 0)]
  let c1 := if draw_baselines then c0 ++ [DRAWING_COLOR_BASELINES] else c0
  let c2 := if draw_lines then c1 ++ [DRAWING_COLOR_LINES] else c1
  let c3 := if draw_endpoints then c2 ++ [DRAWING_COLOR_POINTS] else c2
  let c4 := if draw_baselines && draw_lines then
      c3 ++ [addColors DRAWING_COLOR_BASELINES DRAWING_COLOR_LINES] else c3
  let c5 := if draw_baselines && draw_endpoints then
      c4 ++ [addColors DRAWING_COLOR_BASELINES DRAWING_COLOR_POINTS] else c4
  let c6 := if draw_lines && draw_endpoints then
      c5 ++ [addColors DRAWING_COLOR_LINES DRAWING_COLOR_POINTS] else c5
  if draw_baselines && draw_lines && draw_endpoints then
    c6 ++ [addColors (addColors DRAWING_COLOR_BASELINES DRAWING_COLOR_LINES)
            DRAWING_COLOR_POINTS]
  else c6

/-- The class table the specification describes: background, then the
enabled single channels in the order baseline, lines, endpoints, then the
pairwise element-wise sums of enabled channels in the order
baseline+lines, baseline+endpoints, lines+endpoints, then the triple sum
when all three are enabled. -/
def spec_class_table (b l e : Bool) : List (ℕ × ℕ × ℕ) :=
  [(0, 0, 0)] ++
    (if b then [DRAWING_COLOR_BASELINES] else []) ++
    (if l then [DRAWING_COLOR_LINES] else []) ++
    (if e then [DRAWING_COLOR_POINTS] else []) ++
    (if b && l then [addColors DRAWING_COLOR_BASELINES DRAWING_COLOR_LINES] else []) ++
    (if b && e then [addColors DRAWING_COLOR_BASELINES DRAWING_COLOR_POINTS] else []) ++
    (if l && e then [addColors DRAWING_COLOR_LINES DRAWING_COLOR_POINTS] else []) ++
    (if b && l && e then
      [addColors (addColors DRAWING_COLOR_BASELINES DRAWING_COLOR_LINES)
        DRAWING_COLOR_POINTS] else [])

/-- C5: for every combination of the three drawing flags the generated class
table is the background followed by enabled singles, pairs and the triple in
the specified fixed order, and for `baselines, lines` enabled and
`endpoints` disabled it is exactly
`[(0,0,0), (255,0,0), (0,255,0), (255,255,0)]`. -/
theorem classes_list_spec :
    (∀ b l e : Bool, classes_list b l e = spec_class_table b l e) ∧
      classes_list true true false =
        [(0, 0, 0), (255, 0, 0), (0, 255, 0), (255, 255, 0)] := by
  constructor
  · decide
  · decide

/-- The 0/1 code row for a color: each component thresholded against zero
(`np.greater(classes, [[0,0,0]]).astype(int)`, utils.py line 222). -/
def multilabel_code (c : ℕ × ℕ × ℕ) : List ℕ :=
  [if 0 < c.1 then 1 else 0, if 0 < c.2.1 then 1 else 0, if 0 < c.2.2 then 1 else 0]

/-- The final class rows written to `classes.txt` (utils.py lines 220-227):
with `multilabel` each color row is horizontally stacked with its 0/1 code
row; otherwise the color rows are written as they are. -/
def final_classes (classes : List (ℕ × ℕ × ℕ)) (multilabel : Bool) : List (List ℕ) :=
  if multilabel then
    (classes.zip (classes.map multilabel_code)).map
      (fun p => [p.1.1, p.1.2.1, p.1.2.2] ++ p.2)
  else classes.map (fun c => [c.1, c.2.1, c.2.2])

/-- C6: with `multilabel` enabled every class row is augmented with a
0/1 vector of width 3 (the width of the color triple) whose k-th bit is 1
exactly when the k-th color component is positive, preserving row order and
row count. -/
theorem final_classes_multilabel_spec (classes : List (ℕ × ℕ × ℕ)) :
    final_classes classes true =
      classes.map (fun c =>
        [c.1, c.2.1, c.2.2,
          if 0 < c.1 then 1 else 0, if 0 < c.2.1 then 1 else 0,
          if 0 < c.2.2 then 1 else 0]) := by
  rw [final_classes, if_pos rfl]
  induction classes with
  | nil => rfl
  | cons a t ih =>
    simp only [List.map_cons, List.zip_cons_cons, ih, multilabel_code]
    rfl

/-- Python `int()` on a rational: truncation toward zero. -/
def pyInt (q : ℚ) : ℤ := q.num.tdiv q.den

lemma pyInt_eq_floor {q : ℚ} (h : 0 ≤ q) : pyInt q = ⌊q⌋ := by
  rw [pyInt, Int.tdiv_eq_ediv (Rat.num_nonneg.2 h) (Int.natCast_nonneg _), Rat.floor_def]

lemma natFloor_sqrt_div (a b : ℕ) (hb : 0 < b) :
    ⌊Real.sqrt ((a : ℝ) / (b : ℝ))⌋₊ = Nat.sqrt (a / b) := by
  have hx : (0 : ℝ) ≤ (a : ℝ) / (b : ℝ) := by positivity
  have hfloor : ⌊(a : ℝ) / (b : ℝ)⌋₊ = a / b := by
    rw [Nat.floor_div_nat, Nat.floor_natCast]
  rw [Nat.floor_eq_iff (Real.sqrt_nonneg _)]
  constructor
  · rw [Real.le_sqrt (by positivity) hx]
    calc ((Nat.sqrt (a / b) : ℝ)) ^ 2 ≤ ((a / b : ℕ) : ℝ) := by
          exact_mod_cast Nat.sqrt_le' (a / b)
      _ ≤ (a : ℝ) / (b : ℝ) := by
          rw [← hfloor]
          exact Nat.floor_le hx
  · rw [Real.sqrt_lt' (by positivity)]
    calc (a : ℝ) / (b : ℝ) < ⌊(a : ℝ) / (b : ℝ)⌋₊ + 1 := Nat.lt_floor_add_one _
      _ ≤ ((Nat.sqrt (a / b) : ℝ) + 1) ^ 2 := by
          rw [hfloor]
          exact_mod_cast Nat.succ_le_succ_sqrt' (a / b)

lemma dim_formula (c h w s : ℕ) (hpos : 0 < h * w) :
    ⌊(c : ℝ) * Real.sqrt ((s : ℝ) / ((h : ℝ) * (w : ℝ)))⌋₊ = Nat.sqrt (c * c * s / (h * w)) := by
  have hcast : ((c * c * s : ℕ) : ℝ) / (((h * w) : ℕ) : ℝ)
      = (c : ℝ) ^ 2 * ((s : ℝ) / ((h : ℝ) * (w : ℝ))) := by
    push_cast
    ring
  have key : Real.sqrt (((c * c * s : ℕ) : ℝ) / (((h * w) : ℕ) : ℝ))
      = (c : ℝ) * Real.sqrt ((s : ℝ) / ((h : ℝ) * (w : ℝ))) := by
    rw [hcast, Real.sqrt_mul (by positivity), Real.sqrt_sq (by positivity)]
  rw [← key, natFloor_sqrt_div _ _ hpos]

/-- Dimensions `(int(w*ratio), int(h*ratio))` computed by `save_and_resize`
(utils.py lines 66-70) with `ratio = sqrt(size/(h*w))`; the truncation of
`w * sqrt(size/(h*w))` equals `Nat.sqrt` of the floored radicand
`w*w*size/(h*w)`, as the bridge theorem `save_and_resize_truncated_dims`
proves against the real-number expression. The pair is `(new_w, new_h)`,
the `dsize` argument order of `cv2.resize`. -/
def resized_dims (h w size : ℕ) : ℕ × ℕ :=
  (Nat.sqrt (w * w * size / (h * w)), Nat.sqrt (h * h * size / (h * w)))

/-- Model of `save_and_resize` (utils.py lines 53-73), returning the pixel
dimensions `(width, height)` of the saved image: resized when a pixel
budget is given, unchanged otherwise. -/
def save_and_resize (h w : ℕ) (size : Option ℕ) : ℕ × ℕ :=
  match size with
  | some s => resized_dims h w s
  | none => (w, h)

/-- C3 (amended): with a pixel budget `size`, `save_and_resize` computes
`ratio = sqrt(size/(h*w))` and saves at dimensions
`(int(w*ratio), int(h*ratio))` where `int` truncates (floors) rather than
rounds; when `size` is `None` the image is saved unresized at `(w, h)`. -/
theorem save_and_resize_truncated_dims (h w size : ℕ) (hh : 0 < h) (hw : 0 < w) :
    (save_and_resize h w (some size)).1
        = ⌊(w : ℝ) * Real.sqrt ((size : ℝ) / ((h : ℝ) * (w : ℝ)))⌋₊ ∧
      (save_and_resize h w (some size)).2
        = ⌊(h : ℝ) * Real.sqrt ((size : ℝ) / ((h : ℝ) * (w : ℝ)))⌋₊ ∧
      save_and_resize h w none = (w, h) := by
  refine ⟨?_, ?_, rfl⟩
  · exact (dim_formula w h w size (Nat.mul_pos hh hw)).symm
  · exact (dim_formula h h w size (Nat.mul_pos hh hw)).symm

theorem save_and_resize_truncated_dims_witness :
    0 < 2 ∧ 0 < 3 ∧
      ((save_and_resize 2 3 (some 24)).1
          = ⌊(3 : ℝ) * Real.sqrt ((24 : ℝ) / ((2 : ℝ) * (3 : ℝ)))⌋₊ ∧
        (save_and_resize 2 3 (some 24)).2
          = ⌊(2 : ℝ) * Real.sqrt ((24 : ℝ) / ((2 : ℝ) * (3 : ℝ)))⌋₊ ∧
        save_and_resize 2 3 none = (3, 2)) :=
  ⟨by decide, by decide, save_and_resize_truncated_dims 2 3 24 (by decide) (by decide)⟩

/-- C3 counterexample: at `h = 1`, `w = 1`, `size = 3` the saved width is
`int(1 * sqrt 3) = 1`, while the claimed `round(1 * sqrt 3)` is 2, so the
resize rule does not round. -/
theorem save_and_resize_round_counterexample :
    (save_and_resize 1 1 (some 3)).1 = 1 ∧
      round ((1 : ℝ) * Real.sqrt ((3 : ℝ) / ((1 : ℝ) * (1 : ℝ)))) = 2 := by
  constructor
  · show Nat.sqrt (1 * 1 * 3 / (1 * 1)) = 1
    rw [show 1 * 1 * 3 / (1 * 1) = 3 by norm_num]
    exact (Nat.eq_sqrt.2 (by omega)).symm
  · have h1 : Real.sqrt 3 < 5 / 2 := by
      rw [Real.sqrt_lt' (by norm_num)]
      norm_num
    have h2 : (3 : ℝ) / 2 ≤ Real.sqrt 3 := by
      rw [Real.le_sqrt (by norm_num) (by norm_num)]
      norm_num
    rw [show (3 : ℝ) / ((1 : ℝ) * (1 : ℝ)) = 3 by norm_num, one_mul, round_eq,
      Int.floor_eq_iff]
    constructor
    · push_cast
      linarith
    · push_cast
      linarith

/-- The absolute baseline stroke thickness of `annotate_one_page`
(utils.py line 112):
`int(max(gt.shape[0] * 0.002, baseline_thickness * mean_line_height))`,
with `gt.shape[0]` the canvas height. -/
def absolute_baseline_thickness (canvas_height : ℕ)
    (baseline_thickness mean_line_height : ℚ) : ℤ :=
  pyInt (max ((canvas_height : ℚ) * (2 / 1000)) (baseline_thickness * mean_line_height))

/-- A degenerate page with one text line whose outline points share one y
coordinate, so its line height and hence the mean line-height statistic
are 0. -/
def pageFlatLine : Page :=
  { text_regions :=
      [{ text_lines := [{ baseline := [⟨0, 5⟩, ⟨3, 5⟩], coords := [⟨0, 5⟩, ⟨3, 5⟩] }] }] }

/-- C4 counterexample: on a 1100-pixel-high canvas with the default
thickness fraction 0.2 and the degenerate page whose mean line height is 0,
the code computes `int(max(2.2, 0)) = 2`, which differs from the claimed
`max(2.2, 0) = 2.2` and is strictly smaller than 0.2% of the canvas
height. -/
theorem absolute_baseline_thickness_counterexample :
    (_compute_statistics_line_height pageFlatLine).1 = 0 ∧
      absolute_baseline_thickness 1100 (1 / 5)
          (_compute_statistics_line_height pageFlatLine).1 = 2 ∧
      ¬ ((absolute_baseline_thickness 1100 (1 / 5)
            (_compute_statistics_line_height pageFlatLine).1 : ℚ)
          ≥ (1100 : ℚ) * (2 / 1000)) := by
  have hmean : (_compute_statistics_line_height pageFlatLine).1 = 0 := by
    simp [_compute_statistics_line_height, retained_line_heights, line_heights,
      pageFlatLine, listMax, listMin, statMean]
  have hval : absolute_baseline_thickness 1100 (1 / 5)
      (_compute_statistics_line_height pageFlatLine).1 = 2 := by
    rw [hmean, absolute_baseline_thickness]
    have hmax : max (((1100 : ℕ) : ℚ) * (2 / 1000)) (1 / 5 * 0) = 11 / 5 := by
      norm_num
    rw [hmax, pyInt_eq_floor (by norm_num)]
    norm_num
  refine ⟨hmean, hval, ?_⟩
  rw [hval]
  norm_num

/-- C4 (amended): the absolute stroke thickness is the Python `int`
truncation (floor) of `max(canvas_height * 0.002, fraction * mean)`; it is
at least `⌊canvas_height * 0.002⌋` and strictly greater than
`canvas_height * 0.002 - 1`, for every nonnegative fraction and mean
line-height statistic, but can fall below `canvas_height * 0.002` itself
by the truncation. -/
theorem absolute_baseline_thickness_floor_bound (h : ℕ) (t mean : ℚ) :
    absolute_baseline_thickness h t mean
        = ⌊max ((h : ℚ) * (2 / 1000)) (t * mean)⌋ ∧
      ⌊(h : ℚ) * (2 / 1000)⌋ ≤ absolute_baseline_thickness h t mean ∧
      (h : ℚ) * (2 / 1000) - 1 < (absolute_baseline_thickness h t mean : ℚ) := by
  have hmax0 : 0 ≤ max ((h : ℚ) * (2 / 1000)) (t * mean) :=
    le_max_of_le_left (by positivity)
  have heq : absolute_baseline_thickness h t mean
      = ⌊max ((h : ℚ) * (2 / 1000)) (t * mean)⌋ := pyInt_eq_floor hmax0
  refine ⟨heq, ?_, ?_⟩
  · rw [heq]
    exact Int.floor_mono (le_max_left _ _)
  · rw [heq]
    calc (h : ℚ) * (2 / 1000) - 1 < (⌊(h : ℚ) * (2 / 1000)⌋ : ℚ) :=
          Int.sub_one_lt_floor _
      _ ≤ (⌊max ((h : ℚ) * (2 / 1000)) (t * mean)⌋ : ℚ) := by
          exact_mod_cast Int.floor_mono (le_max_left _ _)

/-- Reference height the thickness/radius conventions were calibrated
against (utils.py line 14). -/
def TARGET_HEIGHT : ℕ := 1100

/-- A single-channel drawing buffer: pixel value at column x, row y. -/
abbrev Buf : Type := ℕ → ℕ → ℕ

/-- The all-zero buffer (`np.zeros_like(img[:, :, 0])`). -/
def zero_buf : Buf := fun _ _ => 0

/-- Model of `cv2.circle` with `thickness=-1`: fill the disk of the given
radius around the center with the color, leaving other pixels unchanged. -/
def cv2_circle (buf : Buf) (center : Point) (radius : ℤ) (color : ℕ) : Buf :=
  fun x y =>
    if ((x : ℤ) - center.x) ^ 2 + ((y : ℤ) - center.y) ^ 2 ≤ radius ^ 2 then color
    else buf x y

/-- The endpoint radius of `annotate_one_page` (utils.py lines 138 and 141):
`int(diameter_endpoint / 2 * (canvas_height / TARGET_HEIGHT))`. -/
def endpoint_radius (h : ℕ) (diameter : ℤ) : ℤ :=
  pyInt ((diameter : ℚ) / 2 * ((h : ℚ) / (TARGET_HEIGHT : ℚ)))

/-- One iteration of the endpoint loop (utils.py lines 135-144): draw a
filled circle at the first and at the last baseline point. `baseline[0]`
on an empty baseline raises IndexError, which the `except` clause turns
into leaving the buffer unchanged; on a nonempty baseline both draws
succeed (`baseline[-1]` cannot fail once `baseline[0]` succeeded). -/
def draw_endpoints_line (h : ℕ) (d : ℤ) (buf : Buf) (tl : TextLine) : Buf :=
  match tl.baseline with
  | [] => buf
  | p :: rest =>
    cv2_circle (cv2_circle buf p (endpoint_radius h d) 255)
      ((p :: rest).getLastD p) (endpoint_radius h d) 255

/-- A 3-channel label raster with its pixel dimensions
(`np.zeros_like(img)` and the channel writes into it). -/
structure Canvas where
  height : ℕ
  width : ℕ
  pixel : ℕ → ℕ → ℕ × ℕ × ℕ

/-- The drawing configuration of `annotate_one_page`. -/
structure MaskOpts where
  draw_baselines : Bool
  draw_lines : Bool
  draw_endpoints : Bool
  baseline_thickness : ℚ
  diameter_endpoint : ℤ

/-- The external OpenCV polygon primitives (out-of-scope capabilities):
`polylines buf polys thickness` strokes the open polylines with color 255,
`fillPoly buf poly` fills the closed polygon with color 255. -/
structure DrawPrims where
  polylines : Buf → List (List Point) → ℤ → Buf
  fillPoly : Buf → List Point → Buf

/-- The label raster built by `annotate_one_page` (utils.py lines 102-145):
flatten the text lines over all regions; on an empty flattening the mask
stays `np.zeros_like(img)`; otherwise each enabled channel is drawn into
its own buffer and placed at the arg-max index of its drawing color (red
for baselines, green for line polygons, blue for endpoints). -/
def build_mask (img_h img_w : ℕ) (page : Page) (opts : MaskOpts)
    (prims : DrawPrims) : Canvas :=
  let text_lines := (page.text_regions.map (fun tr => tr.text_lines)).flatten
  if text_lines.isEmpty then
    { height := img_h, width := img_w, pixel := fun _ _ => (0, 0, 0) }
  else
    let red := if opts.draw_baselines then
        prims.polylines zero_buf (text_lines.map (fun tl => tl.baseline))
          (absolute_baseline_thickness img_h opts.baseline_thickness
            (_compute_statistics_line_height page).1)
      else zero_buf
    let green := if opts.draw_lines then
        text_lines.foldl (fun b tl => prims.fillPoly b tl.coords) zero_buf
      else zero_buf
    let blue := if opts.draw_endpoints then
        text_lines.foldl (draw_endpoints_line img_h opts.diameter_endpoint) zero_buf
      else zero_buf
    { height := img_h, width := img_w,
      pixel := fun x y => (red x y, green x y, blue x y) }

/-- C10: a parsed layout that yields zero text lines across all regions
produces an all-zero label raster with the source image's pixel dimensions,
for every setting of the three drawing flags (and any primitives). -/
theorem build_mask_no_lines_all_zero (img_h img_w : ℕ) (page : Page)
    (opts : MaskOpts) (prims : DrawPrims)
    (hempty : (page.text_regions.map (fun tr => tr.text_lines)).flatten = []) :
    (build_mask img_h img_w page opts prims).height = img_h ∧
      (build_mask img_h img_w page opts prims).width = img_w ∧
      ∀ x y, (build_mask img_h img_w page opts prims).pixel x y = (0, 0, 0) := by
  rw [build_mask]
  simp [hempty]

/-- A page with one region and no text lines. -/
def pageNoLines : Page := { text_regions := [{ text_lines := [] }] }

/-- Drawing options with every channel enabled. -/
def allOpts : MaskOpts :=
  { draw_baselines := true, draw_lines := true, draw_endpoints := true,
    baseline_thickness := 1 / 5, diameter_endpoint := 20 }

/-- Primitives that leave the buffer unchanged, enough to instantiate the
capability interface in witnesses. -/
def identityPrims : DrawPrims :=
  { polylines := fun b _ _ => b, fillPoly := fun b _ => b }

theorem build_mask_no_lines_all_zero_witness :
    (pageNoLines.text_regions.map (fun tr => tr.text_lines)).flatten = [] ∧
      ((build_mask 4 7 pageNoLines allOpts identityPrims).height = 4 ∧
        (build_mask 4 7 pageNoLines allOpts identityPrims).width = 7 ∧
        ∀ x y, (build_mask 4 7 pageNoLines allOpts identityPrims).pixel x y = (0, 0, 0)) :=
  ⟨by decide, build_mask_no_lines_all_zero 4 7 pageNoLines allOpts identityPrims (by decide)⟩

/-- C2 counterexample: on a line whose baseline has exactly one point,
`annotate_one_page` does not skip the endpoint markers: no IndexError is
raised (`baseline[0]` and `baseline[-1]` are the same valid point) and both
circle draws execute, so the point's pixel is painted 255 where a skipped
line would have left the zero buffer unchanged. -/
theorem draw_endpoints_one_point_counterexample :
    draw_endpoints_line 1100 20 zero_buf
        { baseline := [{ x := 5, y := 5 }], coords := [] } 5 5 = 255 ∧
      zero_buf 5 5 = 0 := by
  have hr : endpoint_radius 1100 20 = 10 := by
    rw [endpoint_radius,
      show ((20 : ℤ) : ℚ) / 2 * (((1100 : ℕ) : ℚ) / ((TARGET_HEIGHT : ℕ) : ℚ)) = 10 by
        norm_num [TARGET_HEIGHT],
      pyInt_eq_floor (by norm_num)]
    norm_num
  constructor
  · show cv2_circle
        (cv2_circle zero_buf { x := 5, y := 5 } (endpoint_radius 1100 20) 255)
        { x := 5, y := 5 } (endpoint_radius 1100 20) 255 5 5 = 255
    rw [cv2_circle, hr]
    norm_num
  · rfl

/-- C2 (amended): in the endpoint pass, a line whose baseline is empty
(zero points) is the one that is skipped without raising — its IndexError
is caught, the buffer is left unchanged, and the remaining lines are still
processed — whereas a line whose baseline has exactly one point is not
skipped: both endpoint circles are drawn at that single point. -/
theorem draw_endpoints_skip_policy (h : ℕ) (d : ℤ) (buf : Buf)
    (pre post : List TextLine) (tl : TextLine) (hempty : tl.baseline = []) :
    (pre ++ tl :: post).foldl (draw_endpoints_line h d) buf
        = (pre ++ post).foldl (draw_endpoints_line h d) buf ∧
      ∀ (p : Point) (cs : List Point) (b : Buf),
        draw_endpoints_line h d b { baseline := [p], coords := cs }
          = cv2_circle (cv2_circle b p (endpoint_radius h d) 255) p
              (endpoint_radius h d) 255 := by
  constructor
  · have hskip : ∀ b : Buf, draw_endpoints_line h d b tl = b := by
      intro b
      simp [draw_endpoints_line, hempty]
    rw [List.foldl_append, List.foldl_append, List.foldl_cons, hskip]
  · intro p cs b
    rfl

/-- A text line with an empty baseline. -/
def emptyBaselineLine : TextLine := { baseline := [], coords := [] }

/-- A text line whose baseline is the single point (1, 2). -/
def onePointLineA : TextLine := { baseline := [{ x := 1, y := 2 }], coords := [] }

/-- A text line whose baseline is the single point (3, 4). -/
def onePointLineB : TextLine := { baseline := [{ x := 3, y := 4 }], coords := [] }

theorem draw_endpoints_skip_policy_witness :
    emptyBaselineLine.baseline = [] ∧
      (([onePointLineA] ++ emptyBaselineLine :: [onePointLineB]).foldl
            (draw_endpoints_line 1100 20) zero_buf
          = ([onePointLineA] ++ [onePointLineB]).foldl
              (draw_endpoints_line 1100 20) zero_buf ∧
        ∀ (p : Point) (cs : List Point) (b : Buf),
          draw_endpoints_line 1100 20 b { baseline := [p], coords := cs }
            = cv2_circle (cv2_circle b p (endpoint_radius 1100 20) 255) p
                (endpoint_radius 1100 20) 255) :=
  ⟨rfl,
    draw_endpoints_skip_policy 1100 20 zero_buf
      [onePointLineA] [onePointLineB] emptyBaselineLine rfl⟩

/-- An input image as the dataset generator sees it: an identity (standing
for its filename), pixel dimensions, whether the companion
`page/<basename>.xml` layout file exists on disk, and the parsed layout
when it does. -/
structure InputImage where
  name : ℕ
  height : ℕ
  width : ℕ
  hasPageFile : Bool
  page : Page

/-- Model of `get_page_filename` (utils.py lines 23-37): return the
companion layout path when it exists on disk, raise FileNotFoundError
otherwise. -/
def get_page_filename (img : InputImage) : Except Unit ℕ :=
  if img.hasPageFile then Except.ok img.name else Except.error ()

/-- Model of `annotate_one_page` (utils.py lines 76-157) at the
control-flow level: resolve the companion layout file (propagating its
FileNotFoundError), build the label raster, save, and return the pair of
output paths, keyed here by the image identity. -/
def annotate_one_page (img : InputImage) (opts : MaskOpts) (prims : DrawPrims) :
    Except Unit (ℕ × ℕ) :=
  match get_page_filename img with
  | Except.error e => Except.error e
  | Except.ok _ =>
    let _gt := build_mask img.height img.width img.page opts prims
    Except.ok (img.name, img.name)

/-- The per-image loop of `cbad_set_generator` (utils.py lines 192-201):
process images in order, appending each returned pair to the accumulating
manifest list; an exception raised by `annotate_one_page` propagates and
aborts the generator (the loop body has no try/except). -/
def cbad_generator_go (opts : MaskOpts) (prims : DrawPrims) :
    List InputImage → List (ℕ × ℕ) → Except Unit (List (ℕ × ℕ))
  | [], acc => Except.ok acc
  | img :: rest, acc =>
    match annotate_one_page img opts prims with
    | Except.error e => Except.error e
    | Except.ok entry => cbad_generator_go opts prims rest (acc ++ [entry])

/-- The manifest `cbad_set_generator` accumulates and then writes to
`set_data.csv`, or the exception that escaped the loop. -/
def cbad_set_generator_manifest (imgs : List InputImage) (opts : MaskOpts)
    (prims : DrawPrims) : Except Unit (List (ℕ × ℕ)) :=
  cbad_generator_go opts prims imgs []

/-- An image whose companion layout file is missing. -/
def imgMissingPage : InputImage :=
  { name := 0, height := 4, width := 7, hasPageFile := false, page := pageNoLines }

/-- An image whose companion layout file exists. -/
def imgWithPage : InputImage :=
  { name := 1, height := 4, width := 7, hasPageFile := true, page := pageNoLines }

/-- C1 counterexample: with the image lacking its companion layout file
first and a healthy image second, the generator propagates the
FileNotFoundError and aborts: the second image — which on its own is
processed successfully, as the second conjunct shows — is never processed
and no manifest is produced, so the failure is not confined to the single
image. -/
theorem cbad_generator_abort_counterexample :
    cbad_set_generator_manifest [imgMissingPage, imgWithPage] allOpts identityPrims
        = Except.error () ∧
      annotate_one_page imgWithPage allOpts identityPrims = Except.ok (1, 1) := by
  constructor
  · rfl
  · rfl

lemma cbad_generator_go_abort (opts : MaskOpts) (prims : DrawPrims)
    (pre : List InputImage) :
    ∀ (img : InputImage) (post : List InputImage) (acc : List (ℕ × ℕ)),
      (∀ i ∈ pre, i.hasPageFile = true) → img.hasPageFile = false →
      cbad_generator_go opts prims (pre ++ img :: post) acc = Except.error () := by
  induction pre with
  | nil =>
    intro img post acc _ himg
    simp [cbad_generator_go, annotate_one_page, get_page_filename, himg]
  | cons a t ih =>
    intro img post acc hpre himg
    have ha : a.hasPageFile = true := hpre a (List.mem_cons_self a t)
    have hok : annotate_one_page a opts prims = Except.ok (a.name, a.name) := by
      simp [annotate_one_page, get_page_filename, ha]
    simp only [List.cons_append, cbad_generator_go, hok]
    exact ih img post _ (fun i hi => hpre i (List.mem_cons_of_mem a hi)) himg

/-- C1 (amended/corrected): a missing companion layout file is not confined
to the failing image: whenever every image before it has its companion
file, the one missing companion aborts the whole `cbad_set_generator` run
with FileNotFoundError — the subsequent images are not processed and no
manifest is produced at all. -/
theorem cbad_generator_missing_companion_aborts (opts : MaskOpts)
    (prims : DrawPrims) (pre post : List InputImage) (img : InputImage)
    (hpre : ∀ i ∈ pre, i.hasPageFile = true) (himg : img.hasPageFile = false) :
    cbad_set_generator_manifest (pre ++ img :: post) opts prims
      = Except.error () :=
  cbad_generator_go_abort opts prims pre img post [] hpre himg

theorem cbad_generator_missing_companion_aborts_witness :
    (∀ i ∈ [imgWithPage], i.hasPageFile = true) ∧
      imgMissingPage.hasPageFile = false ∧
      cbad_set_generator_manifest ([imgWithPage] ++ imgMissingPage :: [])
          allOpts identityPrims = Except.error () :=
  ⟨by decide, by decide,
    cbad_generator_missing_companion_aborts allOpts identityPrims [imgWithPage]
      [] imgMissingPage (by decide) (by decide)⟩

/-- The train index list (utils.py line 247,
`df_data.index.difference(df_eval.index)`): the original row positions not
sampled for eval, in ascending order (pandas `Index.difference` returns a
sorted index). -/
def train_indexes (n : ℕ) (evalIdx : List ℕ) : List ℕ :=
  (List.range n).filter (fun i => !(evalIdx.contains i))

/-- Model of `split_set_for_eval` (utils.py lines 235-253). The pandas
sampler `df_data.sample(frac=0.15, random_state=42)` is an external
collaborator; it is modelled by the list `evalIdx` of distinct in-range row
positions it selects — a deterministic function of the fixed seed and of N.
The eval set is the sampled rows in sample order; the train set is the rows
at the complementary positions in ascending order (`df_data.loc` over the
index difference). -/
def split_set_for_eval (rows : List (ℕ × ℕ)) (evalIdx : List ℕ) :
    List (ℕ × ℕ) × List (ℕ × ℕ) :=
  (evalIdx.filterMap (fun i => rows[i]?),
    (train_indexes rows.length evalIdx).filterMap (fun i => rows[i]?))

lemma sel_eq_map (rows : List (ℕ × ℕ)) (idx : List ℕ)
    (h : ∀ i ∈ idx, i < rows.length) :
    idx.filterMap (fun i => rows[i]?) = idx.map (fun i => rows.getD i (0, 0)) := by
  induction idx with
  | nil => rfl
  | cons a t ih =>
    have ha : a < rows.length := h a (List.mem_cons_self a t)
    rw [List.filterMap_cons, List.map_cons, List.getElem?_eq_getElem ha,
      ih (fun i hi => h i (List.mem_cons_of_mem a hi))]
    rw [List.getD_eq_getElem?_getD, List.getElem?_eq_getElem ha]
    rfl

lemma map_getD_range {α : Type} (l : List α) (d : α) :
    (List.range l.length).map (fun i => l.getD i d) = l := by
  induction l with
  | nil => rfl
  | cons a t ih =>
    rw [List.length_cons, List.range_succ_eq_map, List.map_cons, List.map_map]
    simp only [Function.comp, List.getD_cons_succ, List.getD_cons_zero]
    rw [show (fun i => t.getD i d) = fun i => t.getD i d from rfl] at ih
    exact congrArg (a :: ·) ih

/-- C9: for every manifest and every list of distinct in-range row
positions chosen by the (seed-deterministic) sampler, `split_set_for_eval`
partitions the manifest: eval and train sit on disjoint index sets, their
lengths sum to N, and their concatenation is a permutation of the manifest
rows (multiset union equals the original row multiset); and the split is a
pure function of its inputs, so the same manifest and sample always yield
the same partition. -/
theorem split_set_partition (rows : List (ℕ × ℕ)) (evalIdx : List ℕ)
    (hnd : evalIdx.Nodup) (hlt : ∀ i ∈ evalIdx, i < rows.length) :
    ((split_set_for_eval rows evalIdx).1.length
        + (split_set_for_eval rows evalIdx).2.length = rows.length) ∧
      List.Disjoint evalIdx (train_indexes rows.length evalIdx) ∧
      ((split_set_for_eval rows evalIdx).1
          ++ (split_set_for_eval rows evalIdx).2).Perm rows ∧
      ∀ rows2 idx2, rows2 = rows → idx2 = evalIdx →
        split_set_for_eval rows2 idx2 = split_set_for_eval rows evalIdx := by
  have htmem : ∀ i ∈ train_indexes rows.length evalIdx, i < rows.length := by
    intro i hi
    exact List.mem_range.1 (List.mem_of_mem_filter hi)
  have hdisj : List.Disjoint evalIdx (train_indexes rows.length evalIdx) := by
    intro a ha hb
    have hnot := (List.mem_filter.1 hb).2
    simp at hnot
    exact hnot ha
  have htnd : (train_indexes rows.length evalIdx).Nodup :=
    (List.nodup_range rows.length).filter _
  have hbig : (evalIdx ++ train_indexes rows.length evalIdx).Nodup :=
    List.nodup_append.2 ⟨hnd, htnd, hdisj⟩
  have hmem : ∀ a, a ∈ evalIdx ++ train_indexes rows.length evalIdx
      ↔ a ∈ List.range rows.length := by
    intro a
    by_cases hae : a ∈ evalIdx
    · simp [hae, List.mem_range, hlt a hae]
    · simp [train_indexes, List.mem_append, List.mem_filter, List.mem_range, hae]
  have hpermIdx : (evalIdx ++ train_indexes rows.length evalIdx).Perm
      (List.range rows.length) :=
    List.perm_of_nodup_nodup_toFinset_eq hbig (List.nodup_range rows.length)
      (by
        ext a
        simp only [List.mem_toFinset]
        exact hmem a)
  have hsel : (split_set_for_eval rows evalIdx).1 ++ (split_set_for_eval rows evalIdx).2
      = (evalIdx ++ train_indexes rows.length evalIdx).map
          (fun i => rows.getD i (0, 0)) := by
    rw [List.map_append, split_set_for_eval, sel_eq_map rows evalIdx hlt,
      sel_eq_map rows (train_indexes rows.length evalIdx) htmem]
  have hperm : ((split_set_for_eval rows evalIdx).1
      ++ (split_set_for_eval rows evalIdx).2).Perm rows := by
    rw [hsel]
    have := hpermIdx.map (fun i => rows.getD i (0, 0))
    rwa [map_getD_range rows (0, 0)] at this
  refine ⟨?_, hdisj, hperm, ?_⟩
  · have := hperm.length_eq
    simpa [List.length_append] using this
  · intro rows2 idx2 h1 h2
    rw [h1, h2]

/-- A concrete three-row manifest. -/
def manifestRows : List (ℕ × ℕ) := [(1, 2), (3, 4), (5, 6)]

/-- A concrete sampled index list (distinct, in range). -/
def sampleIdx : List ℕ := [2, 0]

theorem split_set_partition_witness :
    sampleIdx.Nodup ∧ (∀ i ∈ sampleIdx, i < manifestRows.length) ∧
      (((split_set_for_eval manifestRows sampleIdx).1.length
          + (split_set_for_eval manifestRows sampleIdx).2.length
            = manifestRows.length) ∧
        List.Disjoint sampleIdx (train_indexes manifestRows.length sampleIdx) ∧
        ((split_set_for_eval manifestRows sampleIdx).1
            ++ (split_set_for_eval manifestRows sampleIdx).2).Perm manifestRows ∧
        ∀ rows2 idx2, rows2 = manifestRows → idx2 = sampleIdx →
          split_set_for_eval rows2 idx2 = split_set_for_eval manifestRows sampleIdx) :=
  ⟨by decide, by decide,
    split_set_partition manifestRows sampleIdx (by decide) (by decide)⟩
